import Mathlib

/-!
Shallow embedding of the `alloc-compose` combinators `FallbackAlloc`
(src/fallback_alloc.rs) and `Proxy` (src/proxy.rs).

Modelling conventions:
* `usize` is `Nat`; a `NonNull<u8>` pointer is its address as a `Nat`.
* Rust's `Result<MemoryBlock, AllocErr>` is `Except AllocErr MemoryBlock`.
* Backing allocators are opaque values of the capability structures below;
  a method taking `&mut self` becomes explicit state passing.  Raw memory is
  an ambient byte map `Mem : Nat → Nat` threaded through the operations; the
  one explicit memory effect performed by the combinator layer itself is the
  `ptr::copy_nonoverlapping` of the cross-allocator grow helper, modelled by
  `copyNonoverlapping`.  (What an opaque inner allocator does to the bytes it
  manages is its own business and is left to its `Mem`-transformer.)
* Callback sinks (`CallbackRef`) use interior mutability in Rust; here the
  callback state is passed and returned explicitly.
-/

namespace AllocCompose

/-- Requested size and alignment of an allocation (`core::alloc::Layout`). -/
structure Layout where
  size : Nat
  align : Nat
deriving DecidableEq

/-- A returned block: a non-null address together with its actual usable size
(`core::alloc::MemoryBlock`). -/
structure MemoryBlock where
  ptr : Nat
  size : Nat
deriving DecidableEq

/-- Whether newly exposed bytes must be zero-filled (`core::alloc::AllocInit`). -/
inductive AllocInit where
  | Uninitialized
  | Zeroed
deriving DecidableEq

/-- Whether a resize may relocate the block (`core::alloc::ReallocPlacement`). -/
inductive ReallocPlacement where
  | InPlace
  | MayMove
deriving DecidableEq

/-- The unit failure signal (`core::alloc::AllocErr`). -/
inductive AllocErr where
  | allocErr
deriving DecidableEq

/-- Raw memory: the byte stored at each address. -/
def Mem : Type := Nat → Nat

/-- Model of `ptr::copy_nonoverlapping(src, dst, count)`: the `count` bytes at
`src` overwrite the `count` bytes at `dst`; all other addresses are untouched. -/
def copyNonoverlapping (mem : Mem) (src dst count : Nat) : Mem :=
  fun a => if dst ≤ a ∧ a < dst + count then mem (src + (a - dst)) else mem a

/-- The allocator capability (`AllocRef`) of a backing allocator with state
type `σ`: each operation consumes the allocator state and the ambient memory
and returns them updated. -/
structure AllocRef (σ : Type) where
  alloc : σ → Mem → Layout → AllocInit → Except AllocErr MemoryBlock × σ × Mem
  dealloc : σ → Mem → Nat → Layout → σ × Mem
  grow : σ → Mem → Nat → Layout → Nat → ReallocPlacement → AllocInit →
    Except AllocErr MemoryBlock × σ × Mem
  shrink : σ → Mem → Nat → Layout → Nat → ReallocPlacement →
    Except AllocErr MemoryBlock × σ × Mem

/-- The ownership capability (`Owns`): a pure query on the allocator state. -/
structure Owns (σ : Type) where
  owns : σ → MemoryBlock → Bool

/-- The bulk capability (`AllocAll`) of a backing allocator with state `σ`. -/
structure AllocAll (σ : Type) where
  alloc_all : σ → Mem → Layout → AllocInit → Except AllocErr MemoryBlock × σ × Mem
  dealloc_all : σ → σ
  capacity : σ → Nat
  capacity_left : σ → Nat
  is_empty : σ → Bool
  is_full : σ → Bool

/-- The callback capability (`CallbackRef`) with callback state `γ`.  The
hook signatures are exactly those used at the call sites in `src/proxy.rs`:
in particular `before_owns` receives no operation parameter and `after_owns`
receives only the boolean result. -/
structure CallbackRef (γ : Type) where
  before_alloc : γ → Layout → AllocInit → γ
  after_alloc : γ → Layout → AllocInit → Except AllocErr MemoryBlock → γ
  before_dealloc : γ → Nat → Layout → γ
  after_dealloc : γ → Nat → Layout → γ
  before_grow : γ → Nat → Layout → Nat → ReallocPlacement → AllocInit → γ
  after_grow : γ → Nat → Layout → Nat → ReallocPlacement → AllocInit →
    Except AllocErr MemoryBlock → γ
  before_shrink : γ → Nat → Layout → Nat → ReallocPlacement → γ
  after_shrink : γ → Nat → Layout → Nat → ReallocPlacement →
    Except AllocErr MemoryBlock → γ
  before_alloc_all : γ → Layout → AllocInit → γ
  after_alloc_all : γ → Layout → AllocInit → Except AllocErr MemoryBlock → γ
  before_dealloc_all : γ → γ
  after_dealloc_all : γ → γ
  before_owns : γ → γ
  after_owns : γ → Bool → γ

/-- Modelled from the spec: the crate-level helper `grow` (imported as
`crate::grow` in `src/fallback_alloc.rs` but whose definition is not among the
given source files).  Per §4.4 steps 3–4 of the spec: when placement is
`MayMove`, allocate a fresh block of `new_size` (at the old alignment) from
the second allocator with the requested `init`, copy `old_layout.size` bytes
from `ptr` into the new block, deallocate the old block from the first
allocator using `old_layout`, and return the new block; when placement is
`InPlace` fail outright, with both allocators untouched. -/
def growHelper {σ1 σ2 : Type} (A1 : AllocRef σ1) (A2 : AllocRef σ2)
    (s1 : σ1) (s2 : σ2) (mem : Mem) (ptr : Nat) (old_layout : Layout)
    (new_size : Nat) (placement : ReallocPlacement) (init : AllocInit) :
    Except AllocErr MemoryBlock × σ1 × σ2 × Mem :=
  match placement with
  | .MayMove =>
    match A2.alloc s2 mem { size := new_size, align := old_layout.align } init with
    | (.ok new_memory, s2', mem') =>
      let mem'' := copyNonoverlapping mem' ptr new_memory.ptr old_layout.size
      let (s1', mem''') := A1.dealloc s1 mem'' ptr old_layout
      (.ok new_memory, s1', s2', mem''')
    | (.error e, s2', mem') => (.error e, s1, s2', mem')
  | .InPlace => (.error AllocErr.allocErr, s1, s2, mem)

/-- The OR combinator (`FallbackAlloc`): a primary and a fallback allocator. -/
structure FallbackAlloc (σp σf : Type) where
  primary : σp
  fallback : σf

/-- `FallbackAlloc::alloc` (src/fallback_alloc.rs:59-64): try the primary;
on failure forward the request to the fallback. -/
def FallbackAlloc.alloc {σp σf : Type} (P : AllocRef σp) (F : AllocRef σf)
    (s : FallbackAlloc σp σf) (mem : Mem) (layout : Layout) (init : AllocInit) :
    Except AllocErr MemoryBlock × FallbackAlloc σp σf × Mem :=
  match P.alloc s.primary mem layout init with
  | (.ok m, p, mem') => (.ok m, ⟨p, s.fallback⟩, mem')
  | (.error _, p, mem') =>
    let (r, f, mem'') := F.alloc s.fallback mem' layout init
    (r, ⟨p, f⟩, mem'')

/-- `FallbackAlloc::dealloc` (src/fallback_alloc.rs:66-75): route by asking
the primary whether it owns `{ptr, layout.size}`. -/
def FallbackAlloc.dealloc {σp σf : Type} (P : AllocRef σp) (PO : Owns σp)
    (F : AllocRef σf) (s : FallbackAlloc σp σf) (mem : Mem) (ptr : Nat)
    (layout : Layout) : FallbackAlloc σp σf × Mem :=
  if PO.owns s.primary { ptr := ptr, size := layout.size } then
    let (p, mem') := P.dealloc s.primary mem ptr layout
    (⟨p, s.fallback⟩, mem')
  else
    let (f, mem') := F.dealloc s.fallback mem ptr layout
    (⟨s.primary, f⟩, mem')

/-- `FallbackAlloc::grow` (src/fallback_alloc.rs:77-105): if the primary owns
`{ptr, layout.size}`, try `primary.grow`; if that fails, run the
cross-allocator helper; otherwise delegate to the fallback. -/
def FallbackAlloc.grow {σp σf : Type} (P : AllocRef σp) (PO : Owns σp)
    (F : AllocRef σf) (s : FallbackAlloc σp σf) (mem : Mem) (ptr : Nat)
    (layout : Layout) (new_size : Nat) (placement : ReallocPlacement)
    (init : AllocInit) : Except AllocErr MemoryBlock × FallbackAlloc σp σf × Mem :=
  if PO.owns s.primary { ptr := ptr, size := layout.size } then
    match P.grow s.primary mem ptr layout new_size placement init with
    | (.ok memory, p, mem') => (.ok memory, ⟨p, s.fallback⟩, mem')
    | (.error _, p, mem') =>
      let (r, p', f, mem'') :=
        growHelper P F p s.fallback mem' ptr layout new_size placement init
      (r, ⟨p', f⟩, mem'')
  else
    let (r, f, mem') := F.grow s.fallback mem ptr layout new_size placement init
    (r, ⟨s.primary, f⟩, mem')

/-- `FallbackAlloc::shrink` (src/fallback_alloc.rs:107-122): route by the
same ownership check and delegate fully. -/
def FallbackAlloc.shrink {σp σf : Type} (P : AllocRef σp) (PO : Owns σp)
    (F : AllocRef σf) (s : FallbackAlloc σp σf) (mem : Mem) (ptr : Nat)
    (layout : Layout) (new_size : Nat) (placement : ReallocPlacement) :
    Except AllocErr MemoryBlock × FallbackAlloc σp σf × Mem :=
  if PO.owns s.primary { ptr := ptr, size := layout.size } then
    let (r, p, mem') := P.shrink s.primary mem ptr layout new_size placement
    (r, ⟨p, s.fallback⟩, mem')
  else
    let (r, f, mem') := F.shrink s.fallback mem ptr layout new_size placement
    (r, ⟨s.primary, f⟩, mem')

/-- `impl Owns for FallbackAlloc` (src/fallback_alloc.rs:125-133). -/
def FallbackAlloc.owns {σp σf : Type} (PO : Owns σp) (FO : Owns σf)
    (s : FallbackAlloc σp σf) (memory : MemoryBlock) : Bool :=
  PO.owns s.primary memory || FO.owns s.fallback memory

/-- The assembled `AllocRef` implementation of `FallbackAlloc`
(src/fallback_alloc.rs:54-123), so the combinator is itself a backing
allocator and nests. -/
def FallbackAlloc.allocRef {σp σf : Type} (P : AllocRef σp) (PO : Owns σp)
    (F : AllocRef σf) : AllocRef (FallbackAlloc σp σf) where
  alloc := fun s mem layout init => FallbackAlloc.alloc P F s mem layout init
  dealloc := fun s mem ptr layout => FallbackAlloc.dealloc P PO F s mem ptr layout
  grow := fun s mem ptr layout new_size placement init =>
    FallbackAlloc.grow P PO F s mem ptr layout new_size placement init
  shrink := fun s mem ptr layout new_size placement =>
    FallbackAlloc.shrink P PO F s mem ptr layout new_size placement

/-- The assembled `Owns` implementation of `FallbackAlloc`. -/
def FallbackAlloc.ownsImpl {σp σf : Type} (PO : Owns σp) (FO : Owns σf) :
    Owns (FallbackAlloc σp σf) where
  owns := fun s memory => FallbackAlloc.owns PO FO s memory

/-- The instrumentation combinator (`Proxy`): an inner allocator and a
callback sink. -/
structure Proxy (σ γ : Type) where
  alloc : σ
  callbacks : γ

/-- `Proxy::alloc` (src/proxy.rs:82-88); named `allocImpl` because the struct
field `alloc` already claims the name `Proxy.alloc`. -/
def Proxy.allocImpl {σ γ : Type} (A : AllocRef σ) (C : CallbackRef γ)
    (s : Proxy σ γ) (mem : Mem) (layout : Layout) (init : AllocInit) :
    Except AllocErr MemoryBlock × Proxy σ γ × Mem :=
  let c1 := C.before_alloc s.callbacks layout init
  let (result, a, mem') := A.alloc s.alloc mem layout init
  let c2 := C.after_alloc c1 layout init result
  (result, ⟨a, c2⟩, mem')

/-- `Proxy::dealloc` (src/proxy.rs:90-95). -/
def Proxy.dealloc {σ γ : Type} (A : AllocRef σ) (C : CallbackRef γ)
    (s : Proxy σ γ) (mem : Mem) (ptr : Nat) (layout : Layout) :
    Proxy σ γ × Mem :=
  let c1 := C.before_dealloc s.callbacks ptr layout
  let (a, mem') := A.dealloc s.alloc mem ptr layout
  let c2 := C.after_dealloc c1 ptr layout
  (⟨a, c2⟩, mem')

/-- `Proxy::grow` (src/proxy.rs:97-112). -/
def Proxy.grow {σ γ : Type} (A : AllocRef σ) (C : CallbackRef γ)
    (s : Proxy σ γ) (mem : Mem) (ptr : Nat) (layout : Layout) (new_size : Nat)
    (placement : ReallocPlacement) (init : AllocInit) :
    Except AllocErr MemoryBlock × Proxy σ γ × Mem :=
  let c1 := C.before_grow s.callbacks ptr layout new_size placement init
  let (result, a, mem') := A.grow s.alloc mem ptr layout new_size placement init
  let c2 := C.after_grow c1 ptr layout new_size placement init result
  (result, ⟨a, c2⟩, mem')

/-- `Proxy::shrink` (src/proxy.rs:114-128). -/
def Proxy.shrink {σ γ : Type} (A : AllocRef σ) (C : CallbackRef γ)
    (s : Proxy σ γ) (mem : Mem) (ptr : Nat) (layout : Layout) (new_size : Nat)
    (placement : ReallocPlacement) :
    Except AllocErr MemoryBlock × Proxy σ γ × Mem :=
  let c1 := C.before_shrink s.callbacks ptr layout new_size placement
  let (result, a, mem') := A.shrink s.alloc mem ptr layout new_size placement
  let c2 := C.after_shrink c1 ptr layout new_size placement result
  (result, ⟨a, c2⟩, mem')

/-- `Proxy::alloc_all` (src/proxy.rs:132-138). -/
def Proxy.alloc_all {σ γ : Type} (AA : AllocAll σ) (C : CallbackRef γ)
    (s : Proxy σ γ) (mem : Mem) (layout : Layout) (init : AllocInit) :
    Except AllocErr MemoryBlock × Proxy σ γ × Mem :=
  let c1 := C.before_alloc_all s.callbacks layout init
  let (result, a, mem') := AA.alloc_all s.alloc mem layout init
  let c2 := C.after_alloc_all c1 layout init result
  (result, ⟨a, c2⟩, mem')

/-- `Proxy::dealloc_all` (src/proxy.rs:140-145). -/
def Proxy.dealloc_all {σ γ : Type} (AA : AllocAll σ) (C : CallbackRef γ)
    (s : Proxy σ γ) : Proxy σ γ :=
  let c1 := C.before_dealloc_all s.callbacks
  let a := AA.dealloc_all s.alloc
  let c2 := C.after_dealloc_all c1
  ⟨a, c2⟩

/-- `Proxy::capacity` (src/proxy.rs:147-151): forwards to the inner
allocator's `capacity`, no hooks. -/
def Proxy.capacity {σ γ : Type} (AA : AllocAll σ) (s : Proxy σ γ) : Nat :=
  AA.capacity s.alloc

/-- `Proxy::capacity_left` (src/proxy.rs:153-157): as written in the source
it forwards to the inner allocator's `capacity` (not `capacity_left`). -/
def Proxy.capacity_left {σ γ : Type} (AA : AllocAll σ) (s : Proxy σ γ) : Nat :=
  AA.capacity s.alloc

/-- `Proxy::is_empty` (src/proxy.rs:159-163). -/
def Proxy.is_empty {σ γ : Type} (AA : AllocAll σ) (s : Proxy σ γ) : Bool :=
  AA.is_empty s.alloc

/-- `Proxy::is_full` (src/proxy.rs:165-169). -/
def Proxy.is_full {σ γ : Type} (AA : AllocAll σ) (s : Proxy σ γ) : Bool :=
  AA.is_full s.alloc

/-- `impl Owns for Proxy` (src/proxy.rs:172-179): `before_owns()` is called
with no argument, the inner query runs, `after_owns(owns)` receives only the
boolean result, which is returned unchanged.  The callback sink's interior
mutability is modelled by returning the updated `Proxy` state. -/
def Proxy.owns {σ γ : Type} (O : Owns σ) (C : CallbackRef γ)
    (s : Proxy σ γ) (memory : MemoryBlock) : Bool × Proxy σ γ :=
  let c1 := C.before_owns s.callbacks
  let r := O.owns s.alloc memory
  let c2 := C.after_owns c1 r
  (r, ⟨s.alloc, c2⟩)

/-- The assembled `AllocRef` implementation of `Proxy` (src/proxy.rs:81-129),
so the combinator is itself a backing allocator and nests. -/
def Proxy.allocRef {σ γ : Type} (A : AllocRef σ) (C : CallbackRef γ) :
    AllocRef (Proxy σ γ) where
  alloc := fun s mem layout init => Proxy.allocImpl A C s mem layout init
  dealloc := fun s mem ptr layout => Proxy.dealloc A C s mem ptr layout
  grow := fun s mem ptr layout new_size placement init =>
    Proxy.grow A C s mem ptr layout new_size placement init
  shrink := fun s mem ptr layout new_size placement =>
    Proxy.shrink A C s mem ptr layout new_size placement

/-!
Concrete instances, playing the role the tests of the repository give to
`Region` and `System`: a small fixed region at base address 1000 with 32
bytes of capacity (state: bytes used) and an unbounded bump allocator at
base address 5000 (state: next offset).  They let the general theorems be
evaluated at closed inputs.
-/

/-- The all-zero memory. -/
def memZero : Mem := fun _ => 0

/-- A 32-byte region at base 1000; the state counts the bytes used.  Its
`grow` always fails (as a fixed region's tail grow does once full). -/
def regionAlloc : AllocRef Nat where
  alloc := fun used mem layout _ =>
    if used + layout.size ≤ 32 then
      (.ok ⟨1000 + used, layout.size⟩, used + layout.size, mem)
    else (.error .allocErr, used, mem)
  dealloc := fun used mem _ layout => (used - layout.size, mem)
  grow := fun used mem _ _ _ _ _ => (.error .allocErr, used, mem)
  shrink := fun used mem ptr layout new_size _ =>
    (.ok ⟨ptr, new_size⟩, used - (layout.size - new_size), mem)

/-- Ownership for `regionAlloc`: address-range check on `[1000, 1032)`. -/
def regionOwns : Owns Nat where
  owns := fun _ b => 1000 ≤ b.ptr && b.ptr < 1032

/-- An unbounded bump allocator at base 5000; the state is the next offset. -/
def heapAlloc : AllocRef Nat where
  alloc := fun next mem layout _ => (.ok ⟨5000 + next, layout.size⟩, next + layout.size, mem)
  dealloc := fun next mem _ _ => (next, mem)
  grow := fun next mem _ _ new_size _ _ => (.ok ⟨5000 + next, new_size⟩, next + new_size, mem)
  shrink := fun next mem ptr _ new_size _ => (.ok ⟨ptr, new_size⟩, next, mem)

/-- Ownership for `heapAlloc`: every address at or above 5000. -/
def heapOwns : Owns Nat where
  owns := fun _ b => 5000 ≤ b.ptr

/-- A bulk-capable inner allocator over the 32-byte region: the state is the
bytes used, so `capacity` and `capacity_left` genuinely differ on a partly
used state. -/
def bulkModel : AllocAll Nat where
  alloc_all := fun used mem _ _ => (.ok ⟨1000 + used, 32 - used⟩, 32, mem)
  dealloc_all := fun _ => 0
  capacity := fun _ => 32
  capacity_left := fun used => 32 - used
  is_empty := fun used => used == 0
  is_full := fun used => used == 32

instance {ε α : Type} [DecidableEq ε] [DecidableEq α] : DecidableEq (Except ε α) := fun a b =>
  match a, b with
  | .ok x, .ok y =>
    if h : x = y then .isTrue (by rw [h]) else .isFalse (fun hc => h (Except.ok.inj hc))
  | .ok _, .error _ => .isFalse (fun hc => Except.noConfusion hc)
  | .error _, .ok _ => .isFalse (fun hc => Except.noConfusion hc)
  | .error x, .error y =>
    if h : x = y then .isTrue (by rw [h]) else .isFalse (fun hc => h (Except.error.inj hc))

/-- One log entry per callback hook, carrying exactly the arguments the hook
receives at its call site in `src/proxy.rs`. -/
inductive Event where
  | beforeAlloc (layout : Layout) (init : AllocInit)
  | afterAlloc (layout : Layout) (init : AllocInit) (result : Except AllocErr MemoryBlock)
  | beforeDealloc (ptr : Nat) (layout : Layout)
  | afterDealloc (ptr : Nat) (layout : Layout)
  | beforeGrow (ptr : Nat) (layout : Layout) (new_size : Nat)
      (placement : ReallocPlacement) (init : AllocInit)
  | afterGrow (ptr : Nat) (layout : Layout) (new_size : Nat)
      (placement : ReallocPlacement) (init : AllocInit)
      (result : Except AllocErr MemoryBlock)
  | beforeShrink (ptr : Nat) (layout : Layout) (new_size : Nat)
      (placement : ReallocPlacement)
  | afterShrink (ptr : Nat) (layout : Layout) (new_size : Nat)
      (placement : ReallocPlacement) (result : Except AllocErr MemoryBlock)
  | beforeAllocAll (layout : Layout) (init : AllocInit)
  | afterAllocAll (layout : Layout) (init : AllocInit) (result : Except AllocErr MemoryBlock)
  | beforeDeallocAll
  | afterDeallocAll
  | beforeOwns
  | afterOwns (result : Bool)
deriving DecidableEq

/-- A callback sink that logs every hook invocation together with every
argument the hook receives; the callback state is the reversed log. -/
def loggingCallbacks : CallbackRef (List Event) where
  before_alloc := fun log layout init => Event.beforeAlloc layout init :: log
  after_alloc := fun log layout init result => Event.afterAlloc layout init result :: log
  before_dealloc := fun log ptr layout => Event.beforeDealloc ptr layout :: log
  after_dealloc := fun log ptr layout => Event.afterDealloc ptr layout :: log
  before_grow := fun log ptr layout new_size placement init =>
    Event.beforeGrow ptr layout new_size placement init :: log
  after_grow := fun log ptr layout new_size placement init result =>
    Event.afterGrow ptr layout new_size placement init result :: log
  before_shrink := fun log ptr layout new_size placement =>
    Event.beforeShrink ptr layout new_size placement :: log
  after_shrink := fun log ptr layout new_size placement result =>
    Event.afterShrink ptr layout new_size placement result :: log
  before_alloc_all := fun log layout init => Event.beforeAllocAll layout init :: log
  after_alloc_all := fun log layout init result => Event.afterAllocAll layout init result :: log
  before_dealloc_all := fun log => Event.beforeDeallocAll :: log
  after_dealloc_all := fun log => Event.afterDeallocAll :: log
  before_owns := fun log => Event.beforeOwns :: log
  after_owns := fun log result => Event.afterOwns result :: log

/-- An ownership predicate that accepts every block; the inner allocator of
the proxy used to exhibit that the ownership hooks see no parameters. -/
def constOwns : Owns Nat where
  owns := fun _ _ => true

/-- C4: every `Proxy` operation (alloc, dealloc, grow, shrink, alloc_all,
dealloc_all) invokes the paired before hook, then the identical operation
with the same arguments on the wrapped inner allocator, then the paired after
hook — the after hook is applied to the callback state produced by the before
hook and to the inner operation's result — and the result returned to the
caller is exactly the inner allocator's result, unmodified. -/
theorem proxy_hook_order {σ γ : Type} (A : AllocRef σ) (AA : AllocAll σ)
    (C : CallbackRef γ) (s : Proxy σ γ) (mem : Mem) :
    (∀ layout init,
      Proxy.allocImpl A C s mem layout init =
        ((A.alloc s.alloc mem layout init).fst,
         ⟨(A.alloc s.alloc mem layout init).snd.fst,
          C.after_alloc (C.before_alloc s.callbacks layout init) layout init
            (A.alloc s.alloc mem layout init).fst⟩,
         (A.alloc s.alloc mem layout init).snd.snd)) ∧
    (∀ ptr layout,
      Proxy.dealloc A C s mem ptr layout =
        (⟨(A.dealloc s.alloc mem ptr layout).fst,
          C.after_dealloc (C.before_dealloc s.callbacks ptr layout) ptr layout⟩,
         (A.dealloc s.alloc mem ptr layout).snd)) ∧
    (∀ ptr layout new_size placement init,
      Proxy.grow A C s mem ptr layout new_size placement init =
        ((A.grow s.alloc mem ptr layout new_size placement init).fst,
         ⟨(A.grow s.alloc mem ptr layout new_size placement init).snd.fst,
          C.after_grow (C.before_grow s.callbacks ptr layout new_size placement init)
            ptr layout new_size placement init
            (A.grow s.alloc mem ptr layout new_size placement init).fst⟩,
         (A.grow s.alloc mem ptr layout new_size placement init).snd.snd)) ∧
    (∀ ptr layout new_size placement,
      Proxy.shrink A C s mem ptr layout new_size placement =
        ((A.shrink s.alloc mem ptr layout new_size placement).fst,
         ⟨(A.shrink s.alloc mem ptr layout new_size placement).snd.fst,
          C.after_shrink (C.before_shrink s.callbacks ptr layout new_size placement)
            ptr layout new_size placement
            (A.shrink s.alloc mem ptr layout new_size placement).fst⟩,
         (A.shrink s.alloc mem ptr layout new_size placement).snd.snd)) ∧
    (∀ layout init,
      Proxy.alloc_all AA C s mem layout init =
        ((AA.alloc_all s.alloc mem layout init).fst,
         ⟨(AA.alloc_all s.alloc mem layout init).snd.fst,
          C.after_alloc_all (C.before_alloc_all s.callbacks layout init) layout init
            (AA.alloc_all s.alloc mem layout init).fst⟩,
         (AA.alloc_all s.alloc mem layout init).snd.snd)) ∧
    Proxy.dealloc_all AA C s =
      ⟨AA.dealloc_all s.alloc,
       C.after_dealloc_all (C.before_dealloc_all s.callbacks)⟩ := by
  refine ⟨?_, ?_, ?_, ?_, ?_, rfl⟩
  · intro layout init
    rcases h : A.alloc s.alloc mem layout init with ⟨r, a, memr⟩
    simp [Proxy.allocImpl, h]
  · intro ptr layout
    rcases h : A.dealloc s.alloc mem ptr layout with ⟨a, memr⟩
    simp [Proxy.dealloc, h]
  · intro ptr layout new_size placement init
    rcases h : A.grow s.alloc mem ptr layout new_size placement init with ⟨r, a, memr⟩
    simp [Proxy.grow, h]
  · intro ptr layout new_size placement
    rcases h : A.shrink s.alloc mem ptr layout new_size placement with ⟨r, a, memr⟩
    simp [Proxy.shrink, h]
  · intro layout init
    rcases h : AA.alloc_all s.alloc mem layout init with ⟨r, a, memr⟩
    simp [Proxy.alloc_all, h]

/-- C9 (counterexample): the hooks around the ownership query do not receive
the operation's input parameter.  With a callback sink that logs every
argument it is given, running `Proxy::owns` on two different memory blocks
(over an inner allocator whose answer is the same for both) produces entirely
identical outputs — log included — so no hook can have received the block. -/
theorem proxy_owns_hooks_no_params :
    (⟨1000, 4⟩ : MemoryBlock) ≠ (⟨2000, 8⟩ : MemoryBlock) ∧
    Proxy.owns constOwns loggingCallbacks (⟨0, []⟩ : Proxy Nat (List Event)) ⟨1000, 4⟩ =
      Proxy.owns constOwns loggingCallbacks (⟨0, []⟩ : Proxy Nat (List Event)) ⟨2000, 8⟩ :=
  ⟨by decide, rfl⟩

/-- C9 (amended): every `Proxy` hook for the alloc, dealloc, grow, shrink and
alloc_all operations receives the operation's input parameters, and each
after hook additionally receives the operation's result; the ownership-query
hooks are the exception: `before_owns` receives no parameters at all, and
`after_owns` receives only the boolean result. -/
theorem proxy_hooks_parameters {σ γ : Type} (A : AllocRef σ) (O : Owns σ)
    (AA : AllocAll σ) (C : CallbackRef γ) (s : Proxy σ γ) (mem : Mem) :
    (∀ memory,
      Proxy.owns O C s memory =
        (O.owns s.alloc memory,
         ⟨s.alloc, C.after_owns (C.before_owns s.callbacks) (O.owns s.alloc memory)⟩)) ∧
    (∀ layout init,
      (Proxy.allocImpl A C s mem layout init).snd.fst.callbacks =
        C.after_alloc (C.before_alloc s.callbacks layout init) layout init
          (A.alloc s.alloc mem layout init).fst) ∧
    (∀ ptr layout,
      (Proxy.dealloc A C s mem ptr layout).fst.callbacks =
        C.after_dealloc (C.before_dealloc s.callbacks ptr layout) ptr layout) ∧
    (∀ ptr layout new_size placement init,
      (Proxy.grow A C s mem ptr layout new_size placement init).snd.fst.callbacks =
        C.after_grow (C.before_grow s.callbacks ptr layout new_size placement init)
          ptr layout new_size placement init
          (A.grow s.alloc mem ptr layout new_size placement init).fst) ∧
    (∀ ptr layout new_size placement,
      (Proxy.shrink A C s mem ptr layout new_size placement).snd.fst.callbacks =
        C.after_shrink (C.before_shrink s.callbacks ptr layout new_size placement)
          ptr layout new_size placement
          (A.shrink s.alloc mem ptr layout new_size placement).fst) ∧
    (∀ layout init,
      (Proxy.alloc_all AA C s mem layout init).snd.fst.callbacks =
        C.after_alloc_all (C.before_alloc_all s.callbacks layout init) layout init
          (AA.alloc_all s.alloc mem layout init).fst) := by
  refine ⟨fun memory => rfl, ?_, ?_, ?_, ?_, ?_⟩
  · intro layout init
    rcases h : A.alloc s.alloc mem layout init with ⟨r, a, memr⟩
    simp [Proxy.allocImpl, h]
  · intro ptr layout
    rcases h : A.dealloc s.alloc mem ptr layout with ⟨a, memr⟩
    simp [Proxy.dealloc, h]
  · intro ptr layout new_size placement init
    rcases h : A.grow s.alloc mem ptr layout new_size placement init with ⟨r, a, memr⟩
    simp [Proxy.grow, h]
  · intro ptr layout new_size placement
    rcases h : A.shrink s.alloc mem ptr layout new_size placement with ⟨r, a, memr⟩
    simp [Proxy.shrink, h]
  · intro layout init
    rcases h : AA.alloc_all s.alloc mem layout init with ⟨r, a, memr⟩
    simp [Proxy.alloc_all, h]

/-- C7: for every memory block, `FallbackAlloc.owns(block)` is true if and
only if `primary.owns(block)` OR `fallback.owns(block)`. -/
theorem fallback_owns_disjunction {σp σf : Type} (PO : Owns σp) (FO : Owns σf)
    (s : FallbackAlloc σp σf) (memory : MemoryBlock) :
    FallbackAlloc.owns PO FO s memory =
      (PO.owns s.primary memory || FO.owns s.fallback memory) := rfl

/-- C6: `FallbackAlloc.dealloc` and `FallbackAlloc.shrink` route by asking
`primary.owns({ptr, layout.size})`: if true the operation is delegated fully
to the primary (fallback untouched), otherwise fully to the fallback (primary
untouched), with no other cross-allocator logic. -/
theorem fallback_route_by_primary_owns {σp σf : Type} (P : AllocRef σp)
    (PO : Owns σp) (F : AllocRef σf) (s : FallbackAlloc σp σf) (mem : Mem)
    (ptr : Nat) (layout : Layout) (new_size : Nat) (placement : ReallocPlacement) :
    (FallbackAlloc.dealloc P PO F s mem ptr layout =
      if PO.owns s.primary ⟨ptr, layout.size⟩ then
        (⟨(P.dealloc s.primary mem ptr layout).fst, s.fallback⟩,
         (P.dealloc s.primary mem ptr layout).snd)
      else
        (⟨s.primary, (F.dealloc s.fallback mem ptr layout).fst⟩,
         (F.dealloc s.fallback mem ptr layout).snd)) ∧
    (FallbackAlloc.shrink P PO F s mem ptr layout new_size placement =
      if PO.owns s.primary ⟨ptr, layout.size⟩ then
        ((P.shrink s.primary mem ptr layout new_size placement).fst,
         ⟨(P.shrink s.primary mem ptr layout new_size placement).snd.fst, s.fallback⟩,
         (P.shrink s.primary mem ptr layout new_size placement).snd.snd)
      else
        ((F.shrink s.fallback mem ptr layout new_size placement).fst,
         ⟨s.primary, (F.shrink s.fallback mem ptr layout new_size placement).snd.fst⟩,
         (F.shrink s.fallback mem ptr layout new_size placement).snd.snd)) := by
  constructor
  · rcases hP : P.dealloc s.primary mem ptr layout with ⟨p, memp⟩
    rcases hF : F.dealloc s.fallback mem ptr layout with ⟨f, memf⟩
    unfold FallbackAlloc.dealloc
    cases h : PO.owns s.primary ⟨ptr, layout.size⟩ <;> simp [h, hP, hF]
  · rcases hP : P.shrink s.primary mem ptr layout new_size placement with ⟨rp, p, memp⟩
    rcases hF : F.shrink s.fallback mem ptr layout new_size placement with ⟨rff, f, memf⟩
    unfold FallbackAlloc.shrink
    cases h : PO.owns s.primary ⟨ptr, layout.size⟩ <;> simp [h, hP, hF]

/-- C3: `FallbackAlloc.alloc` first tries `primary.alloc`; on success that
result is returned, and on failure the result of `fallback.alloc(layout,
init)` — success or error — is returned unchanged, with no retry and no third
allocator. -/
theorem fallback_alloc_first_try {σp σf : Type} (P : AllocRef σp)
    (F : AllocRef σf) (s : FallbackAlloc σp σf) (mem : Mem) (layout : Layout)
    (init : AllocInit) (r1 : Except AllocErr MemoryBlock) (p1 : σp) (mem1 : Mem)
    (hP : P.alloc s.primary mem layout init = (r1, p1, mem1)) :
    FallbackAlloc.alloc P F s mem layout init =
      match r1 with
      | .ok m => (.ok m, ⟨p1, s.fallback⟩, mem1)
      | .error _ =>
        ((F.alloc s.fallback mem1 layout init).fst,
         ⟨p1, (F.alloc s.fallback mem1 layout init).snd.fst⟩,
         (F.alloc s.fallback mem1 layout init).snd.snd) := by
  rcases hF : F.alloc s.fallback mem1 layout init with ⟨r2, f1, mem2⟩
  cases r1 with
  | ok m => simp [FallbackAlloc.alloc, hP]
  | error e => simp [FallbackAlloc.alloc, hP, hF]

/-- Witness for C3 at the concrete region/bump instances: a 4-byte request
against a region with only 2 bytes left fails on the primary and is served
unchanged by the fallback. -/
theorem fallback_alloc_first_try_witness :
    regionAlloc.alloc 30 memZero ⟨4, 1⟩ .Uninitialized =
      (.error .allocErr, 30, memZero) ∧
    FallbackAlloc.alloc regionAlloc heapAlloc ⟨30, 0⟩ memZero ⟨4, 1⟩ .Uninitialized =
      (.ok ⟨5000, 4⟩, ⟨30, 4⟩, memZero) :=
  ⟨rfl, fallback_alloc_first_try regionAlloc heapAlloc ⟨30, 0⟩ memZero ⟨4, 1⟩
    .Uninitialized (.error .allocErr) 30 memZero rfl⟩

/-- C5 (code bug): the source of `Proxy::capacity_left` (src/proxy.rs:155-157)
forwards to the inner allocator's `capacity` instead of `capacity_left`; on an
inner state with 25 of 32 bytes used, the proxy reports 32 while the inner
allocator's own `capacity_left` reports 7. -/
theorem proxy_capacity_left_bug :
    Proxy.capacity_left bulkModel (⟨25, ()⟩ : Proxy Nat Unit) = 32 ∧
    bulkModel.capacity_left 25 = 7 := ⟨rfl, rfl⟩

/-- Like `regionOwns` but additionally insisting that the presented block's
size equal 4: it agrees with `regionOwns` on requested-size queries for a
4-byte layout yet disagrees on the same address presented with the actual
(larger) block size. -/
def regionOwnsSized : Owns Nat where
  owns := fun _ b => (1000 ≤ b.ptr && b.ptr < 1032) && b.size == 4

/-- C1: when the primary owns the block, `primary.grow` fails and placement
is `MayMove`, `FallbackAlloc.grow` runs the migration protocol: it allocates
a fresh block of `new_size` (at the old alignment) from the fallback with the
requested `init`; on success it copies `old_layout.size` bytes from the old
pointer into the new block, deallocates the old block from the primary using
`old_layout`, and returns the new fallback block; if the fallback allocation
fails, the whole call fails with that error, the primary is never asked to
deallocate (the old block stays intact and primary-owned) and the memory is
untouched. -/
theorem fallback_grow_migration {σp σf : Type} (P : AllocRef σp) (PO : Owns σp)
    (F : AllocRef σf) (s : FallbackAlloc σp σf) (mem : Mem) (ptr : Nat)
    (layout : Layout) (new_size : Nat) (init : AllocInit) (e : AllocErr)
    (p1 : σp) (mem1 : Mem) (rf : Except AllocErr MemoryBlock) (f1 : σf) (mem2 : Mem)
    (howns : PO.owns s.primary ⟨ptr, layout.size⟩ = true)
    (hgrow : P.grow s.primary mem ptr layout new_size .MayMove init = (.error e, p1, mem1))
    (hfb : F.alloc s.fallback mem1 ⟨new_size, layout.align⟩ init = (rf, f1, mem2)) :
    FallbackAlloc.grow P PO F s mem ptr layout new_size .MayMove init =
      match rf with
      | .ok m =>
        (.ok m,
         ⟨(P.dealloc p1 (copyNonoverlapping mem2 ptr m.ptr layout.size) ptr layout).fst, f1⟩,
         (P.dealloc p1 (copyNonoverlapping mem2 ptr m.ptr layout.size) ptr layout).snd)
      | .error e2 => (.error e2, ⟨p1, f1⟩, mem2) := by
  cases rf with
  | ok m =>
    rcases hd : P.dealloc p1 (copyNonoverlapping mem2 ptr m.ptr layout.size) ptr layout
      with ⟨p2, mem3⟩
    simp [FallbackAlloc.grow, growHelper, howns, hgrow, hfb, hd]
  | error e2 =>
    simp [FallbackAlloc.grow, growHelper, howns, hgrow, hfb]

/-- Witness for C1 at the concrete region/bump instances: growing the 4-byte
primary block at 1000 to 8 bytes with `MayMove` migrates it to the fallback
block at 5000, copies the 4 old bytes there, and deallocates it from the
region (whose used count drops to 0). -/
theorem fallback_grow_migration_witness :
    regionOwns.owns 4 ⟨1000, 4⟩ = true ∧
    regionAlloc.grow 4 memZero 1000 ⟨4, 1⟩ 8 .MayMove .Uninitialized =
      (.error .allocErr, 4, memZero) ∧
    heapAlloc.alloc 0 memZero ⟨8, 1⟩ .Uninitialized = (.ok ⟨5000, 8⟩, 8, memZero) ∧
    FallbackAlloc.grow regionAlloc regionOwns heapAlloc ⟨4, 0⟩ memZero 1000 ⟨4, 1⟩ 8
        .MayMove .Uninitialized =
      (.ok ⟨5000, 8⟩, ⟨0, 8⟩, copyNonoverlapping memZero 1000 5000 4) :=
  ⟨by decide, rfl, rfl,
   fallback_grow_migration regionAlloc regionOwns heapAlloc ⟨4, 0⟩ memZero 1000 ⟨4, 1⟩ 8
     .Uninitialized .allocErr 4 memZero (.ok ⟨5000, 8⟩) 8 memZero (by decide) rfl rfl⟩

/-- C2: when the primary owns the block, `primary.grow` fails (leaving its
state as it was) and placement is `InPlace`, `FallbackAlloc.grow` returns an
error, attempts no migration to the fallback, and leaves the whole combinator
state and the memory unchanged. -/
theorem fallback_grow_inplace_propagates {σp σf : Type} (P : AllocRef σp)
    (PO : Owns σp) (F : AllocRef σf) (s : FallbackAlloc σp σf) (mem : Mem)
    (ptr : Nat) (layout : Layout) (new_size : Nat) (init : AllocInit) (e : AllocErr)
    (howns : PO.owns s.primary ⟨ptr, layout.size⟩ = true)
    (hgrow : P.grow s.primary mem ptr layout new_size .InPlace init =
      (.error e, s.primary, mem)) :
    FallbackAlloc.grow P PO F s mem ptr layout new_size .InPlace init =
      (.error .allocErr, s, mem) := by
  simp [FallbackAlloc.grow, growHelper, howns, hgrow]

/-- Witness for C2 at the concrete region/bump instances: an `InPlace` grow of
the primary-owned block past the region's means fails and changes nothing. -/
theorem fallback_grow_inplace_propagates_witness :
    regionOwns.owns 4 ⟨1000, 4⟩ = true ∧
    regionAlloc.grow 4 memZero 1000 ⟨4, 1⟩ 8 .InPlace .Uninitialized =
      (.error .allocErr, 4, memZero) ∧
    FallbackAlloc.grow regionAlloc regionOwns heapAlloc ⟨4, 0⟩ memZero 1000 ⟨4, 1⟩ 8
        .InPlace .Uninitialized =
      (.error .allocErr, ⟨4, 0⟩, memZero) :=
  ⟨by decide, rfl,
   fallback_grow_inplace_propagates regionAlloc regionOwns heapAlloc ⟨4, 0⟩ memZero
     1000 ⟨4, 1⟩ 8 .Uninitialized .allocErr (by decide) rfl⟩

/-- C8: when the fallback owns the block (so, ownership being disjoint, the
primary does not), `FallbackAlloc.grow` delegates entirely to
`fallback.grow`: the result is the fallback's result and the primary
component of the state is unchanged. -/
theorem fallback_grow_fallback_owned_frame {σp σf : Type} (P : AllocRef σp)
    (PO : Owns σp) (F : AllocRef σf) (FO : Owns σf) (s : FallbackAlloc σp σf)
    (mem : Mem) (ptr : Nat) (layout : Layout) (new_size : Nat)
    (placement : ReallocPlacement) (init : AllocInit)
    (hfo : FO.owns s.fallback ⟨ptr, layout.size⟩ = true)
    (hpo : PO.owns s.primary ⟨ptr, layout.size⟩ = false) :
    FallbackAlloc.grow P PO F s mem ptr layout new_size placement init =
      ((F.grow s.fallback mem ptr layout new_size placement init).fst,
       ⟨s.primary, (F.grow s.fallback mem ptr layout new_size placement init).snd.fst⟩,
       (F.grow s.fallback mem ptr layout new_size placement init).snd.snd) := by
  rcases hF : F.grow s.fallback mem ptr layout new_size placement init with ⟨r, f, memf⟩
  simp [FallbackAlloc.grow, hpo, hF]

/-- Witness for C8 at the concrete region/bump instances: growing the
fallback-owned block at 5000 goes to the bump allocator and leaves the
region's used count (4) untouched. -/
theorem fallback_grow_fallback_owned_frame_witness :
    heapOwns.owns 0 ⟨5000, 4⟩ = true ∧
    regionOwns.owns 4 ⟨5000, 4⟩ = false ∧
    FallbackAlloc.grow regionAlloc regionOwns heapAlloc ⟨4, 0⟩ memZero 5000 ⟨4, 1⟩ 8
        .MayMove .Uninitialized =
      (.ok ⟨5000, 8⟩, ⟨4, 8⟩, memZero) :=
  ⟨by decide, by decide,
   fallback_grow_fallback_owned_frame regionAlloc regionOwns heapAlloc heapOwns
     ⟨4, 0⟩ memZero 5000 ⟨4, 1⟩ 8 .MayMove .Uninitialized (by decide) (by decide)⟩

/-- C10: in every routing decision of `FallbackAlloc` (dealloc, grow,
shrink), the block passed to `primary.owns` has size `layout.size`, the
caller-supplied requested size: two ownership predicates that agree on the
block `{ptr, layout.size}` — however much they differ on the same address
paired with the actual (larger) allocated size — make all three operations
behave identically. -/
theorem fallback_routing_requested_size {σp σf : Type} (P : AllocRef σp)
    (PO PO' : Owns σp) (F : AllocRef σf) (s : FallbackAlloc σp σf) (mem : Mem)
    (ptr : Nat) (layout : Layout) (new_size : Nat) (placement : ReallocPlacement)
    (init : AllocInit)
    (h : PO.owns s.primary ⟨ptr, layout.size⟩ = PO'.owns s.primary ⟨ptr, layout.size⟩) :
    FallbackAlloc.dealloc P PO F s mem ptr layout =
      FallbackAlloc.dealloc P PO' F s mem ptr layout ∧
    FallbackAlloc.grow P PO F s mem ptr layout new_size placement init =
      FallbackAlloc.grow P PO' F s mem ptr layout new_size placement init ∧
    FallbackAlloc.shrink P PO F s mem ptr layout new_size placement =
      FallbackAlloc.shrink P PO' F s mem ptr layout new_size placement := by
  refine ⟨?_, ?_, ?_⟩
  · unfold FallbackAlloc.dealloc
    rw [h]
  · unfold FallbackAlloc.grow
    rw [h]
  · unfold FallbackAlloc.shrink
    rw [h]

/-- Witness for C10: `regionOwns` and `regionOwnsSized` agree on the
requested-size query `{1000, 4}` but disagree on the same address with the
actual size 8; routing of all three operations nevertheless coincides. -/
theorem fallback_routing_requested_size_witness :
    regionOwns.owns 4 ⟨1000, 4⟩ = regionOwnsSized.owns 4 ⟨1000, 4⟩ ∧
    regionOwns.owns 4 ⟨1000, 8⟩ ≠ regionOwnsSized.owns 4 ⟨1000, 8⟩ ∧
    (FallbackAlloc.dealloc regionAlloc regionOwns heapAlloc ⟨4, 0⟩ memZero 1000 ⟨4, 1⟩ =
      FallbackAlloc.dealloc regionAlloc regionOwnsSized heapAlloc ⟨4, 0⟩ memZero 1000 ⟨4, 1⟩ ∧
    FallbackAlloc.grow regionAlloc regionOwns heapAlloc ⟨4, 0⟩ memZero 1000 ⟨4, 1⟩ 8
        .MayMove .Uninitialized =
      FallbackAlloc.grow regionAlloc regionOwnsSized heapAlloc ⟨4, 0⟩ memZero 1000 ⟨4, 1⟩ 8
        .MayMove .Uninitialized ∧
    FallbackAlloc.shrink regionAlloc regionOwns heapAlloc ⟨4, 0⟩ memZero 1000 ⟨4, 1⟩ 8
        .MayMove =
      FallbackAlloc.shrink regionAlloc regionOwnsSized heapAlloc ⟨4, 0⟩ memZero 1000 ⟨4, 1⟩ 8
        .MayMove) :=
  ⟨by decide, by decide,
   fallback_routing_requested_size regionAlloc regionOwns regionOwnsSized heapAlloc
     ⟨4, 0⟩ memZero 1000 ⟨4, 1⟩ 8 .MayMove .Uninitialized (by decide)⟩

end AllocCompose
